import Mathlib

/-
Verification of the media-synthesis and pipeline-orchestration subsystem of
the UltraAutomations repository.

The Python sources are embedded shallowly:

* `pySplit` and `pyStrip` model Python's `str.split(sep)` (with a non-empty
  separator) and `str.strip()`; they are written with structural recursion so
  concrete scripts evaluate inside the kernel.
* `generate_segmented_audio` embeds
  `app/core/agents/text_to_video.py:generate_segmented_audio`, with the
  external TTS call represented symbolically: a synthesized segment is the
  atom `Piece.speech text` and a pydub silence is `Piece.silence ms`; pydub
  concatenation (`sum(audio_segments)`) is list append in order.
* moviepy clips are modelled by `Clip` (start, duration, a rational-valued
  sample function); `CompositeAudioClip`, `subclip` and `volumex` follow the
  moviepy 1.x semantics the code runs against.
* `validate_paths_and_permissions` embeds `app/video/utils.py`, with the
  filesystem abstracted as `FS` and every check it performs recorded in an
  ordered trace.
* `VideoProcessor.create_video` embeds `app/video/processor.py`, with the
  outcomes of the external calls (clip loading, encoding) given by `ProcEnv`;
  a Python exception raised at one of those points is the `.error` case of
  the corresponding field and flows to the function's `except` branch.
* `TextToVideo.create_video` embeds the post-encode verification of
  `app/core/agents/text_to_video.py:create_video`.
* `runGraph` and `email_to_youtube` embed the LangGraph pipeline of
  `app/core/agents/email_to_youtube.py`: the three nodes in their wired
  order, the external calls each node makes, and the preflight probe
  handling; the probe report itself is the input `List ProbeItem`.
-/

namespace UltraAuto

/-! ## Python string primitives -/

/-- One step list of Python `str.split(sep)` for a non-empty `sep`:
scan left to right, cut at every non-overlapping occurrence of `sep`,
keep empty pieces.  The fuel argument (an upper bound on the number of
characters consumed) makes the recursion structural. -/
def pySplitAux (sep : List Char) : Nat → List Char → List Char → List (List Char)
  | _, [], acc => [acc.reverse]
  | 0, s, acc => [acc.reverse ++ s]
  | Nat.succ fuel, c :: cs, acc =>
    if sep.isPrefixOf (c :: cs) then
      acc.reverse :: pySplitAux sep fuel (List.drop sep.length (c :: cs)) []
    else
      pySplitAux sep fuel cs (c :: acc)

/-- Python `s.split(sep)` for a non-empty separator (Python raises on an
empty separator; the delimiters used by the repository are non-empty). -/
def pySplit (s sep : String) : List String :=
  if sep.toList = [] then [s]
  else (pySplitAux sep.toList s.toList.length s.toList []).map String.mk

/-- Python `s.startswith(pre)`. -/
def pyStartsWith (s pre : String) : Bool :=
  pre.toList.isPrefixOf s.toList

/-- Python `s.strip()`: drop whitespace from both ends. -/
def pyStrip (s : String) : String :=
  String.mk (((s.toList.dropWhile Char.isWhitespace).reverse.dropWhile
    Char.isWhitespace).reverse)

example : pySplit "a===b===c" "===" = ["a", "b", "c"] := rfl
example : pySplit "a===b" "===" = ["a", "b"] := rfl
example : pySplit "abc" "===" = ["abc"] := rfl
example : pySplit "======" "===" = ["", "", ""] := rfl
example : pyStrip "  hi there\n" = "hi there" := rfl

/-! ## Script segmentation and narration stitching
    (`text_to_video.generate_segmented_audio`) -/

/-- `ai_news_summarizer.AUDIO_SCRIPT_DELIMITER`. -/
def AUDIO_SCRIPT_DELIMITER : String := "==="

/-- `ai_news_summarizer.AUDIO_SCRIPT_ITEM_DELIMITER`. -/
def AUDIO_SCRIPT_ITEM_DELIMITER : String := "<item>"

/-- A symbolic atom of the stitched narration: either the audio synthesized
for one text segment (`_generate_single_segment`) or a pydub silence of a
given duration in milliseconds (`AudioSegment.silent`). -/
inductive Piece where
  | speech (text : String)
  | silence (ms : Nat)
deriving DecidableEq, Repr

/-- A pydub audio value, as the ordered list of its atoms; pydub `+` (and
`sum(audio_segments)`) is append. -/
abbrev Audio := List Piece

/-- The item loop of `generate_segmented_audio` (lines 128-134): append each
item's audio, and an item pause after each item except the last. -/
def itemsAudio (ip : Nat) : List String → Audio
  | [] => []
  | [x] => [Piece.speech x]
  | x :: y :: xs => Piece.speech x :: Piece.silence ip :: itemsAudio ip (y :: xs)

/-- Lines 111-112: `[item.strip() for item in items.split(ITEM) if item.strip()]`. -/
def segItems (itemsBlock : String) : List String :=
  ((pySplit itemsBlock AUDIO_SCRIPT_ITEM_DELIMITER).map pyStrip).filter
    (fun s => !s.isEmpty)

/-- `text_to_video.generate_segmented_audio` (lines 84-155).  The script is
split on the section delimiter; any part count other than three raises
`ValueError("Script must contain exactly two '===' separators")`.  Otherwise
the narration is stitched as: opening, section pause, the items with item
pauses between consecutive items, section pause, closing. -/
def generate_segmented_audio (text : String)
    (section_pause_duration_ms item_pause_duration_ms : Nat) :
    Except String Audio :=
  match pySplit text AUDIO_SCRIPT_DELIMITER with
  | [opening, itemsBlock, closing] =>
    Except.ok
      ([Piece.speech (pyStrip opening), Piece.silence section_pause_duration_ms]
        ++ itemsAudio item_pause_duration_ms (segItems itemsBlock)
        ++ [Piece.silence section_pause_duration_ms, Piece.speech (pyStrip closing)])
  | _ => Except.error "Script must contain exactly two '===' separators"

/-- Duration of one atom, given the duration `sd text` of the audio the TTS
collaborator produces for `text`. -/
def pieceDur (sd : String → Nat) : Piece → Nat
  | Piece.speech t => sd t
  | Piece.silence ms => ms

/-- Duration of a pydub audio value: durations add under concatenation. -/
def audioDur (sd : String → Nat) (a : Audio) : Nat :=
  (a.map (pieceDur sd)).sum

/-! ## moviepy audio clip semantics (moviepy 1.x, as used by
    `app/video/processor.py`) -/

/-- A moviepy clip, reduced to what the mixing code observes: its `start`
attribute, its `duration` attribute, and its signal `frame t` sampled at a
local time `t` (amplitudes and times as rationals). -/
structure Clip where
  start : ℚ
  duration : ℚ
  frame : ℚ → ℚ

/-- `AudioFileClip(path)`: starts at 0 and carries the file's signal. -/
def AudioFileClip (signal : ℚ → ℚ) (d : ℚ) : Clip :=
  { start := 0, duration := d, frame := signal }

/-- moviepy `Clip.end`. -/
def Clip.stop (c : Clip) : ℚ := c.start + c.duration

/-- moviepy `CompositeAudioClip(clips)`: duration is the max of the member
ends; the frame at `t` is the sum of the frames of the members playing at
`t` (`is_playing` is `start <= t < end`; each member is sampled at
`t - start`).  Members keep their own `start`; the constructor does not
offset them. -/
def CompositeAudioClip (clips : List Clip) : Clip :=
  { start := 0
    duration := (clips.map Clip.stop).foldr max 0
    frame := fun t =>
      (clips.map (fun c =>
        if c.start ≤ t ∧ t < c.stop then c.frame (t - c.start) else 0)).sum }

/-- moviepy `Clip.subclip(t_start, t_end)`: shift time by `t_start` and set
the duration attribute to `t_end - t_start` (no clamping to the underlying
content, even when `t_end` exceeds it). -/
def Clip.subclip (c : Clip) (t0 t1 : ℚ) : Clip :=
  { start := c.start, duration := t1 - t0, frame := fun t => c.frame (t + t0) }

/-- moviepy `volumex`: scale every frame, keep start and duration. -/
def Clip.volumex (c : Clip) (factor : ℚ) : Clip :=
  { c with frame := fun t => factor * c.frame t }

/-- `processor.py` lines 62-68: when the background clip is shorter than the
narration, build `CompositeAudioClip([background] * n_loops)` with
`n_loops = int(main.duration / background.duration) + 1` and take
`subclip(0, main.duration)`; otherwise use the background clip as is. -/
def processBackground (bg : Clip) (mainDuration : ℚ) : Clip :=
  if bg.duration < mainDuration then
    Clip.subclip
      (CompositeAudioClip
        (List.replicate ((⌊mainDuration / bg.duration⌋).toNat + 1) bg))
      0 mainDuration
  else bg

/-- Modelled from the spec: the looped-and-truncated background the spec
describes ("loop it (whole-clip repetition, not crossfaded) enough times to
cover the narration duration, then truncate the looped result to exactly the
narration's duration"): the clip of duration `mainDuration` whose frame at
`t` is the base clip's frame at `t` reduced modulo the base duration. -/
def loopedTruncatedSpec (bg : Clip) (mainDuration : ℚ) : Clip :=
  { start := 0
    duration := mainDuration
    frame := fun t => bg.frame (t - bg.duration * (⌊t / bg.duration⌋ : ℤ)) }

/-! ## Data model of `app/video/models.py` -/

/-- `models.VideoConfig` (validation bounds of the pydantic fields are not
re-modelled; the defaults instantiated by `text_to_video.py` are below). -/
structure VideoConfig where
  fps : Nat
  video_bitrate : String
  audio_bitrate : String
  min_free_space_gb : ℚ
  preset : String
  threads : Nat

/-- `models.AudioConfig`. -/
structure AudioConfig where
  main_audio_volume : ℚ
  background_music_volume : ℚ

/-- `text_to_video.DEFAULT_VIDEO_CONFIG` (lines 21-28). -/
def DEFAULT_VIDEO_CONFIG : VideoConfig :=
  { fps := 24, video_bitrate := "1000k", audio_bitrate := "128k"
    min_free_space_gb := 1, preset := "ultrafast", threads := 2 }

/-- `text_to_video.DEFAULT_AUDIO_CONFIG` (lines 30-33). -/
def DEFAULT_AUDIO_CONFIG : AudioConfig :=
  { main_audio_volume := 1, background_music_volume := 1/40 }

/-- `models.VideoInput` (paths as strings). -/
structure VideoInput where
  main_audio_path : String
  image_path : String
  output_path : String
  background_music_path : Option String

/-- `models.VideoProcessingResult`. -/
structure VideoProcessingResult where
  success : Bool
  message : String
  output_path : Option String
  error : Option String
deriving DecidableEq, Repr

/-! ## Resource preflight validator (`app/video/utils.py`) -/

/-- The filesystem facts the validator queries: whether the output directory
exists, whether creating it would succeed, whether it is writable, which
files exist, and the free space at the output location in bytes. -/
structure FS where
  outputDirExists : Bool
  mkdirOk : Bool
  writable : Bool
  pathExists : String → Bool
  freeSpaceBytes : ℚ

/-- One check the validator performs, in the order it performs them. -/
inductive Check where
  | ensureOutputDir
  | writeAccess
  | fileFound (name : String)
  | diskSpace
deriving DecidableEq, Repr

/-- How a call of the validator ends: a raised exception (the `mkdir` call
is not guarded by a try block) or the returned `(bool, Optional[str])`. -/
inductive VOutcome where
  | raised (msg : String)
  | returned (ok : Bool) (msg : Option String)
deriving DecidableEq, Repr

/-- Whether the outcome is a returned failure tuple `(False, message)`. -/
def VOutcome.isReturnedFailure : VOutcome → Bool
  | VOutcome.returned false (some _) => true
  | _ => false

/-- `pathlib.Path(p).parent` rendered on strings: drop the last `/`-separated
component; a bare filename has parent `"."`. -/
def parentDir (p : String) : String :=
  let parts := pySplit p "/"
  if parts.length ≤ 1 then "." else String.intercalate "/" parts.dropLast

/-- Lines 31-33 of `utils.py`: scan the path map in order and stop at the
first declared (non-`output`, non-`None`) path that does not exist.  Returns
the first error message, if any, and the ordered trace of existence checks
actually evaluated. -/
def fileLoop (fs : FS) : List (String × Option String) → Option String × List Check
  | [] => (none, [])
  | (name, p) :: rest =>
    if name = "output" then fileLoop fs rest
    else
      match p with
      | none => fileLoop fs rest
      | some q =>
        if fs.pathExists q then
          let r := fileLoop fs rest
          (r.1, Check.fileFound name :: r.2)
        else
          (some (name ++ " file not found: " ++ q), [Check.fileFound name])

/-- `utils.validate_paths_and_permissions` (lines 9-41), paired with the
ordered trace of checks it evaluates.  In order: ensure the output directory
exists (an impossible `mkdir` raises an uncaught `OSError`); check write
access; check each declared input path exists; check free space.  The free
space message's numeric formatting is elided. -/
def validate_paths_and_permissions (fs : FS)
    (paths : List (String × Option String)) (min_free_space_gb : ℚ) :
    VOutcome × List Check :=
  match (paths.lookup "output").join with
  | none =>
    (VOutcome.raised "AttributeError: 'NoneType' object has no attribute 'parent'", [])
  | some outputPath =>
    let output_dir := parentDir outputPath
    if !fs.outputDirExists && !fs.mkdirOk then
      (VOutcome.raised ("OSError: cannot create directory: " ++ output_dir),
        [Check.ensureOutputDir])
    else if !fs.writable then
      (VOutcome.returned false (some ("No write permission for directory: " ++ output_dir)),
        [Check.ensureOutputDir, Check.writeAccess])
    else
      match fileLoop fs paths with
      | (some msg, trace) =>
        (VOutcome.returned false (some msg),
          Check.ensureOutputDir :: Check.writeAccess :: trace)
      | (none, trace) =>
        if fs.freeSpaceBytes < min_free_space_gb * 1024 * 1024 * 1024 then
          (VOutcome.returned false (some "Insufficient disk space"),
            Check.ensureOutputDir :: Check.writeAccess :: trace ++ [Check.diskSpace])
        else
          (VOutcome.returned true none,
            Check.ensureOutputDir :: Check.writeAccess :: trace ++ [Check.diskSpace])

/-- The path map `VideoProcessor.create_video` hands the validator
(`processor.py` lines 33-38), in dict insertion order. -/
def procPaths (inp : VideoInput) : List (String × Option String) :=
  [("main_audio", some inp.main_audio_path),
   ("image", some inp.image_path),
   ("output", some inp.output_path),
   ("background_music", inp.background_music_path)]

/-- The final free-space check and its verdict, shared by the spec-side
description below. -/
def specDiskTail (fs : FS) (minFreeGb : ℚ) (trace : List Check) :
    VOutcome × List Check :=
  if fs.freeSpaceBytes < minFreeGb * 1024 * 1024 * 1024 then
    (VOutcome.returned false (some "Insufficient disk space"),
      trace ++ [Check.diskSpace])
  else
    (VOutcome.returned true none, trace ++ [Check.diskSpace])

/-- Modelled from the spec (amended): the claimed check discipline of the
preflight validator on the processor's descriptor, written as the claim
states it — checks in the exact order (1) output directory exists or is
created (with the amendment that an impossible creation raises the OS error
instead of returning a failure tuple), (2) output directory writable,
(3) every declared non-output, non-None path exists, in declaration order
(main audio, image, background music), (4) free space at least the
threshold; the first failing check short-circuits with an error naming the
offending path or constraint, and no later check is evaluated. -/
def specValidateDescriptor (fs : FS) (inp : VideoInput) (minFreeGb : ℚ) :
    VOutcome × List Check :=
  let outDir := parentDir inp.output_path
  if !fs.outputDirExists && !fs.mkdirOk then
    (VOutcome.raised ("OSError: cannot create directory: " ++ outDir),
      [Check.ensureOutputDir])
  else if !fs.writable then
    (VOutcome.returned false (some ("No write permission for directory: " ++ outDir)),
      [Check.ensureOutputDir, Check.writeAccess])
  else if !fs.pathExists inp.main_audio_path then
    (VOutcome.returned false
        (some ("main_audio file not found: " ++ inp.main_audio_path)),
      [Check.ensureOutputDir, Check.writeAccess, Check.fileFound "main_audio"])
  else if !fs.pathExists inp.image_path then
    (VOutcome.returned false (some ("image file not found: " ++ inp.image_path)),
      [Check.ensureOutputDir, Check.writeAccess, Check.fileFound "main_audio",
       Check.fileFound "image"])
  else
    match inp.background_music_path with
    | some bg =>
      if !fs.pathExists bg then
        (VOutcome.returned false (some ("background_music file not found: " ++ bg)),
          [Check.ensureOutputDir, Check.writeAccess, Check.fileFound "main_audio",
           Check.fileFound "image", Check.fileFound "background_music"])
      else
        specDiskTail fs minFreeGb
          [Check.ensureOutputDir, Check.writeAccess, Check.fileFound "main_audio",
           Check.fileFound "image", Check.fileFound "background_music"]
    | none =>
      specDiskTail fs minFreeGb
        [Check.ensureOutputDir, Check.writeAccess, Check.fileFound "main_audio",
         Check.fileFound "image"]

/-! ## Video assembler (`app/video/processor.py`, `VideoProcessor.create_video`) -/

/-- Outcomes of the external effects `create_video` performs, in program
order: loading the narration clip, loading the image, loading the background
clip (only attempted when a background path is supplied), a possible
exception in the background processing after a successful load (looping,
volume, composition), and writing the video file.  An `.error e` (or
`some e` for `bgPostError`) stands for a Python exception with message `e`
raised at that point. -/
structure ProcEnv where
  fs : FS
  mainLoad : Except String Clip
  imageLoad : Except String Unit
  bgLoad : Except String Clip
  bgPostError : Option String
  writeResult : Except String Unit

/-- `processor.py` lines 115-122: the outer `except` branch, returning
`VideoProcessingResult(success=False, message=f"Error creating video: {e}",
error=str(e))`. -/
def exceptResult (e : String) : VideoProcessingResult :=
  { success := false, message := "Error creating video: " ++ e
    output_path := none, error := some e }

/-- `processor.py` lines 88-113: write the video file, then close the
handles and return success.  The cleanup line
`if input_data.background_music_path: background_music.close()` raises a
`NameError` when a background path was supplied but the name
`background_music` was never bound (its `AudioFileClip` call raised); that
exception reaches the outer `except` branch. -/
def finishWrite (env : ProcEnv) (inp : VideoInput) (bgBound : Bool) :
    VideoProcessingResult :=
  match env.writeResult with
  | Except.error e => exceptResult e
  | Except.ok _ =>
    if inp.background_music_path.isSome && !bgBound then
      exceptResult "name 'background_music' is not defined"
    else
      { success := true
        message := "Video successfully created at: " ++ inp.output_path
        output_path := some inp.output_path, error := none }

/-- The mixed audio the success path builds (`processor.py` lines 62-75):
narration scaled by `main_audio_volume` overlaid with the processed
background scaled by `background_music_volume`. -/
def mixedAudio (acfg : AudioConfig) (main bg : Clip) : Clip :=
  CompositeAudioClip
    [main.volumex acfg.main_audio_volume,
     (processBackground bg main.duration).volumex acfg.background_music_volume]

/-- `VideoProcessor.create_video` (`processor.py` lines 21-122).  The body
is one `try` block: a validation failure returns the failure tuple as a
result; any raised exception (modelled by the `.error` cases of `ProcEnv`)
is converted by the outer `except` into a failure result.  Background-music
processing has its own inner `except` that falls back to narration-only
audio instead of failing — but see `finishWrite` for the unbound-name
cleanup hazard. -/
def VideoProcessor.create_video (cfg : VideoConfig) (_acfg : AudioConfig)
    (env : ProcEnv) (inp : VideoInput) : VideoProcessingResult :=
  match (validate_paths_and_permissions env.fs (procPaths inp) cfg.min_free_space_gb).1 with
  | VOutcome.raised e => exceptResult e
  | VOutcome.returned false (some msg) =>
    { success := false, message := msg, output_path := none, error := some msg }
  | VOutcome.returned false none =>
    -- Unreachable: the validator always pairs `False` with a message
    -- (pydantic would reject the `None` message this branch would build).
    exceptResult "validation returned no message"
  | VOutcome.returned true _ =>
    match env.mainLoad with
    | Except.error e => exceptResult e
    | Except.ok _main =>
      match env.imageLoad with
      | Except.error e => exceptResult e
      | Except.ok _ =>
        match inp.background_music_path with
        | none => finishWrite env inp false
        | some _ =>
          match env.bgLoad with
          | Except.error _ =>
            -- Inner except: fall back to narration only; `background_music`
            -- was never bound.
            finishWrite env inp false
          | Except.ok _bg =>
            match env.bgPostError with
            | some _ =>
              -- Inner except after a successful load: fall back, name bound.
              finishWrite env inp true
            | none => finishWrite env inp true

/-! ## Post-encode verification (`text_to_video.create_video`, lines 231-308) -/

/-- What the `create_video` LangGraph node observes: the processor's result,
and whether the output file exists and its size after the encode. -/
structure NodeEnv where
  procResult : VideoProcessingResult
  fileExists : Bool
  fileSize : Nat

/-- The verification tail of `text_to_video.create_video` (lines 276-289):
raise on a failed processor result, then raise unless the output file exists
and is non-empty; otherwise the state gains the video path.  A raised
exception is re-raised by the node's `except` branch, so it is the node's
outcome. -/
def TextToVideo.create_video (env : NodeEnv) (video_filename : String) :
    Except String String :=
  if !env.procResult.success then
    Except.error (env.procResult.error.getD "None")
  else if !env.fileExists then
    Except.error "Video file was not created"
  else if env.fileSize = 0 then
    Except.error "Video file was created but is empty"
  else
    Except.ok video_filename

/-! ## Email-to-YouTube pipeline (`app/core/agents/email_to_youtube.py`) -/

/-- The summary produced by `generate_ai_news_summary`. -/
structure Summary where
  title : String
  audio_script : String
  description : String

/-- The LangGraph `AgentState` of `email_to_youtube.py` (lines 15-23),
without the constant playlist fields. -/
structure EYState where
  summary : Option Summary
  video_result : Option String
  thumbnail_path : Option String
  error : Option String

/-- The initial state `email_to_youtube` builds (lines 164-172). -/
def initialEYState : EYState :=
  { summary := none, video_result := none, thumbnail_path := none, error := none }

/-- Outcomes of the external collaborators the three nodes call:
summarization, thumbnail overlay rendering, and `text_to_youtube`
(synthesis, encode and upload). -/
structure GraphEnv where
  summaryResult : Except String Summary
  thumbnailResult : Except String String
  videoResult : Except String String

/-- An external call a node performs (the expensive work of each stage). -/
inductive ExtCall where
  | summarize
  | thumbnailOverlay
  | textToYoutube
deriving DecidableEq, Repr

/-- What one node evaluation produces: the next state, the external calls it
made, and whether it wrote the state's `error` field. -/
structure NodeResult where
  state : EYState
  calls : List ExtCall
  wroteError : Bool

/-- `generate_summary_node` (lines 25-43): call the summarizer; on success
fill `summary`, on an exception set `error` to its message. -/
def generate_summary_node (env : GraphEnv) (s : EYState) : NodeResult :=
  match env.summaryResult with
  | Except.ok v =>
    { state := { s with summary := some v }, calls := [ExtCall.summarize]
      wroteError := false }
  | Except.error e =>
    { state := { s with error := some e }, calls := [ExtCall.summarize]
      wroteError := true }

/-- `generate_thumbnail_node` (lines 45-67): raise (and catch into `error`)
when no summary is available — overwriting any earlier error — otherwise
render the overlay; an overlay exception is also caught into `error`. -/
def generate_thumbnail_node (env : GraphEnv) (s : EYState) : NodeResult :=
  match s.summary with
  | none =>
    { state := { s with error := some "No summary available for thumbnail generation" }
      calls := [], wroteError := true }
  | some _ =>
    match env.thumbnailResult with
    | Except.ok p =>
      { state := { s with thumbnail_path := some p }
        calls := [ExtCall.thumbnailOverlay], wroteError := false }
    | Except.error e =>
      { state := { s with error := some e }
        calls := [ExtCall.thumbnailOverlay], wroteError := true }

/-- `create_video_node` (lines 69-93): raise (and catch into `error`) when
no summary is available; a missing thumbnail only logs a warning; otherwise
call `text_to_youtube` regardless of any earlier error. -/
def create_video_node (env : GraphEnv) (s : EYState) : NodeResult :=
  match s.summary with
  | none =>
    { state := { s with error := some "No summary available for video creation" }
      calls := [], wroteError := true }
  | some _ =>
    match env.videoResult with
    | Except.ok v =>
      { state := { s with video_result := some v }
        calls := [ExtCall.textToYoutube], wroteError := false }
    | Except.error e =>
      { state := { s with error := some e }
        calls := [ExtCall.textToYoutube], wroteError := true }

/-- One run of the compiled graph of `build_graph` (lines 95-117): the three
nodes in their wired order `generate_summary -> generate_thumbnail ->
create_video`, with unconditional edges (no node is gated on the state's
`error` field).  Also accumulates every external call and the number of
nodes that wrote `error`. -/
def runGraph (env : GraphEnv) (s : EYState) : NodeResult :=
  let r1 := generate_summary_node env s
  let r2 := generate_thumbnail_node env r1.state
  let r3 := create_video_node env r2.state
  { state := r3.state
    calls := r1.calls ++ r2.calls ++ r3.calls
    wroteError :=
      r1.wroteError || r2.wroteError || r3.wroteError }

/-- The number of nodes of one graph run that wrote the `error` field. -/
def errorWriteCount (env : GraphEnv) (s : EYState) : Nat :=
  (generate_summary_node env s).wroteError.toNat
    + (generate_thumbnail_node env (generate_summary_node env s).state).wroteError.toNat
    + (create_video_node env
        (generate_thumbnail_node env (generate_summary_node env s).state).state).wroteError.toNat

/-- One entry of the preflight probe report `probe_email_availability`
returns (that function lives outside `src/`; its report shape is taken from
its consumers: `source`, `window`, `count`, optional `error`, with
`item.get("count", 0)` and `item.get("error", "")` as the accessors). -/
structure ProbeItem where
  source : String
  window : String
  count : Nat
  error : String
deriving DecidableEq, Repr

/-- How `email_to_youtube` ends: a raised exception (re-raised by its outer
`except`), the distinguished skip dictionary, or the success dictionary. -/
inductive FlowOutcome where
  | raisedEx (msg : String)
  | skipped (reason : String)
  | flowSuccess (final : EYState)

/-- Whether the outcome is the distinguished skip result. -/
def FlowOutcome.isSkipped : FlowOutcome → Bool
  | FlowOutcome.skipped _ => true
  | _ => false

/-- `email_to_youtube` (lines 122-203): first scan the probe report for a
`missing_gmail_env:` error and raise; then sum the counts and return the
skip result when the total is zero; otherwise run the graph and either raise
the final state's error or return success.  The guard
`if final_state["error"]:` at line 188 is Python truthiness: it raises only
when the error field holds a non-empty string — an error set to the empty
string is falsy, and the flow returns the success dictionary.  The second
component records whether the stage graph was invoked. -/
def email_to_youtube (availability : List ProbeItem) (env : GraphEnv) :
    FlowOutcome × Bool :=
  match availability.find? (fun item => pyStartsWith item.error "missing_gmail_env:") with
  | some item =>
    (FlowOutcome.raisedEx ("Gmail credentials missing: " ++ item.error), false)
  | none =>
    let total_found := (availability.map ProbeItem.count).sum
    if total_found = 0 then
      (FlowOutcome.skipped "no_emails", false)
    else
      let final := (runGraph env initialEYState).state
      match final.error with
      | some e =>
        if e.isEmpty then (FlowOutcome.flowSuccess final, true)
        else (FlowOutcome.raisedEx e, true)
      | none => (FlowOutcome.flowSuccess final, true)

/-! ## Lemmas about the narration stitcher -/

theorem audioDur_append (sd : String → Nat) (a b : Audio) :
    audioDur sd (a ++ b) = audioDur sd a + audioDur sd b := by
  simp [audioDur]

/-- The item loop emits exactly the items' audio interspersed with item
pauses (a pause between consecutive items, none after the last). -/
theorem itemsAudio_eq_intersperse (ip : Nat) (items : List String) :
    itemsAudio ip items
      = List.intersperse (Piece.silence ip) (items.map Piece.speech) := by
  induction items with
  | nil => rfl
  | cons x xs ih =>
    cases xs with
    | nil => rfl
    | cons y ys => simp [itemsAudio, List.intersperse, ih]

theorem audioDur_itemsAudio (sd : String → Nat) (ip : Nat) (items : List String) :
    audioDur sd (itemsAudio ip items)
      = (items.map sd).sum + ip * (items.length - 1) := by
  induction items with
  | nil => simp [itemsAudio, audioDur]
  | cons x xs ih =>
    cases xs with
    | nil => simp [itemsAudio, audioDur, pieceDur]
    | cons y ys =>
      simp only [itemsAudio, audioDur, List.map_cons, List.sum_cons, pieceDur,
        List.length_cons] at ih ⊢
      rw [ih]
      simp only [Nat.succ_sub_one]
      ring

/-- Any part count other than three takes the `ValueError` branch. -/
theorem generate_segmented_audio_error_of_ne_three (text : String) (sp ip : Nat)
    (h : (pySplit text AUDIO_SCRIPT_DELIMITER).length ≠ 3) :
    generate_segmented_audio text sp ip
      = Except.error "Script must contain exactly two '===' separators" := by
  unfold generate_segmented_audio
  split
  next a b c heq => rw [heq] at h; simp at h
  next => rfl

/-! ## Claim theorems -/

/-- C1: a script splitting into exactly three parts on the section delimiter
is segmented into opening, the ordered non-empty trimmed items, and closing;
the stitched narration is exactly opening audio, a section pause, the item
audios with an item pause between consecutive items but not after the last,
a section pause, and the closing audio; its duration is the sum of the
segment durations plus a section pause after the opening, an item pause
times (number of items - 1), and a section pause before the closing. -/
theorem segmentation_three_parts_stitch_and_duration
    (text : String) (sp ip : Nat) (sd : String → Nat)
    (opening itemsBlock closing : String)
    (h : pySplit text AUDIO_SCRIPT_DELIMITER = [opening, itemsBlock, closing]) :
    generate_segmented_audio text sp ip =
      Except.ok
        ([Piece.speech (pyStrip opening), Piece.silence sp]
          ++ List.intersperse (Piece.silence ip) ((segItems itemsBlock).map Piece.speech)
          ++ [Piece.silence sp, Piece.speech (pyStrip closing)])
    ∧ audioDur sd
        ([Piece.speech (pyStrip opening), Piece.silence sp]
          ++ List.intersperse (Piece.silence ip) ((segItems itemsBlock).map Piece.speech)
          ++ [Piece.silence sp, Piece.speech (pyStrip closing)])
      = (sd (pyStrip opening) + ((segItems itemsBlock).map sd).sum
          + sd (pyStrip closing))
        + sp + ip * ((segItems itemsBlock).length - 1) + sp := by
  constructor
  · unfold generate_segmented_audio
    rw [h]
    simp only [itemsAudio_eq_intersperse]
  · rw [← itemsAudio_eq_intersperse, audioDur_append, audioDur_append,
      audioDur_itemsAudio]
    simp only [audioDur, List.map_cons, List.map_nil, List.sum_cons,
      List.sum_nil, pieceDur]
    ring

/-- C1 witness: the spec's end-to-end scenario A, with segment durations
given by text length. -/
theorem segmentation_three_parts_stitch_and_duration_witness :
    pySplit "Hi there\n===\n<item> A\n<item> B\n===\nBye" AUDIO_SCRIPT_DELIMITER
      = ["Hi there\n", "\n<item> A\n<item> B\n", "\nBye"]
    ∧ (generate_segmented_audio "Hi there\n===\n<item> A\n<item> B\n===\nBye" 1000 500 =
        Except.ok
          [Piece.speech "Hi there", Piece.silence 1000, Piece.speech "A",
           Piece.silence 500, Piece.speech "B", Piece.silence 1000, Piece.speech "Bye"]
      ∧ audioDur String.length
          [Piece.speech "Hi there", Piece.silence 1000, Piece.speech "A",
           Piece.silence 500, Piece.speech "B", Piece.silence 1000, Piece.speech "Bye"]
        = 2513) := by
  refine ⟨rfl, ?_, ?_⟩
  · exact (segmentation_three_parts_stitch_and_duration
      "Hi there\n===\n<item> A\n<item> B\n===\nBye" 1000 500 String.length
      "Hi there\n" "\n<item> A\n<item> B\n" "\nBye" rfl).1
  · exact (segmentation_three_parts_stitch_and_duration
      "Hi there\n===\n<item> A\n<item> B\n===\nBye" 1000 500 String.length
      "Hi there\n" "\n<item> A\n<item> B\n" "\nBye" rfl).2

/-- C3: a script whose split on the section delimiter does not yield exactly
three parts makes segmentation fail with the structural `ValueError` before
any synthesis; the error branch carries no audio output. -/
theorem segmentation_malformed_fails (text : String) (sp ip : Nat)
    (h : (pySplit text AUDIO_SCRIPT_DELIMITER).length ≠ 3) :
    generate_segmented_audio text sp ip
      = Except.error "Script must contain exactly two '===' separators" :=
  generate_segmented_audio_error_of_ne_three text sp ip h

/-- C3 witness: a script with a single delimiter occurrence (two parts). -/
theorem segmentation_malformed_fails_witness :
    ((pySplit "Intro===only one delimiter" AUDIO_SCRIPT_DELIMITER).length ≠ 3)
    ∧ generate_segmented_audio "Intro===only one delimiter" 1000 500
        = Except.error "Script must contain exactly two '===' separators" :=
  ⟨by decide, segmentation_malformed_fails _ 1000 500 (by decide)⟩

/-- C4 counterexample: a script without the section delimiter does not get a
single-unit fallback — segmentation raises the structural error and produces
no audio. -/
theorem segmentation_no_delimiter_fails_concrete :
    generate_segmented_audio "Hello world" 1000 500
      = Except.error "Script must contain exactly two '===' separators"
    ∧ (generate_segmented_audio "Hello world" 1000 500).toOption = none :=
  ⟨rfl, rfl⟩

/-- C4 amended: for every script in which the section delimiter does not
occur (the split yields a single part), segmentation fails with the
structural error rather than returning a single-unit fallback sequence. -/
theorem segmentation_no_delimiter_fails (text : String) (sp ip : Nat)
    (h : (pySplit text AUDIO_SCRIPT_DELIMITER).length = 1) :
    generate_segmented_audio text sp ip
      = Except.error "Script must contain exactly two '===' separators" :=
  generate_segmented_audio_error_of_ne_three text sp ip (by omega)

/-- C4 amended witness: a delimiter-free script. -/
theorem segmentation_no_delimiter_fails_witness :
    ((pySplit "Hello world" AUDIO_SCRIPT_DELIMITER).length = 1)
    ∧ generate_segmented_audio "Hello world" 1 2
        = Except.error "Script must contain exactly two '===' separators" :=
  ⟨by decide, segmentation_no_delimiter_fails _ 1 2 (by decide)⟩

/-- C5 (code bug, evaluated at the failing input): with a narration of 10s
and a constant-signal background of 4s, the code computes 3 loops but builds
`CompositeAudioClip([background] * 3)` whose members all start at 0: the
processed background's duration attribute is the narration's 10s, yet its
content is triple the signal on the first pass (frame 3 at t=1) and silence
after the background's own 4s end (frame 0 at t=5), whereas the
whole-clip end-to-end repetition the claim describes still plays the signal
there (frame 1 at t=5).  The mixed track's duration attribute does equal the
narration duration. -/
theorem background_loop_overlays_not_end_to_end :
    ((⌊(10:ℚ) / 4⌋).toNat + 1 = 3)
    ∧ (processBackground (AudioFileClip (fun _ => (1:ℚ)) 4) 10).duration = 10
    ∧ (processBackground (AudioFileClip (fun _ => (1:ℚ)) 4) 10).frame 1 = 3
    ∧ (processBackground (AudioFileClip (fun _ => (1:ℚ)) 4) 10).frame 5 = 0
    ∧ (loopedTruncatedSpec (AudioFileClip (fun _ => (1:ℚ)) 4) 10).frame 5 = 1
    ∧ (loopedTruncatedSpec (AudioFileClip (fun _ => (1:ℚ)) 4) 10).frame 1 = 1
    ∧ (mixedAudio DEFAULT_AUDIO_CONFIG (AudioFileClip (fun _ => (0:ℚ)) 10)
        (AudioFileClip (fun _ => (1:ℚ)) 4)).duration = 10 := by
  have h2 : (⌊(10:ℚ) / 4⌋ : ℤ) = 2 := by norm_num
  have h3 : (⌊(10:ℚ) / 4⌋).toNat + 1 = 3 := by rw [h2]; rfl
  refine ⟨h3, ?_, ?_, ?_, ?_, ?_, ?_⟩
  · simp [processBackground, AudioFileClip, CompositeAudioClip, Clip.subclip,
      Clip.stop]
    norm_num
  · rw [processBackground]
    norm_num [AudioFileClip, h3, CompositeAudioClip, Clip.subclip, Clip.stop,
      List.replicate]
  · rw [processBackground]
    norm_num [AudioFileClip, h3, CompositeAudioClip, Clip.subclip, Clip.stop,
      List.replicate]
  · norm_num [loopedTruncatedSpec, AudioFileClip]
  · norm_num [loopedTruncatedSpec, AudioFileClip]
  · rw [mixedAudio, processBackground]
    norm_num [AudioFileClip, h3, CompositeAudioClip, Clip.subclip, Clip.stop,
      Clip.volumex, List.replicate, DEFAULT_AUDIO_CONFIG]

/-- The file-existence loop, evaluated on the processor's path map: the
declared inputs are checked in declaration order, stopping at the first
missing one. -/
theorem fileLoop_procPaths (fs : FS) (inp : VideoInput) :
    fileLoop fs (procPaths inp)
      = if fs.pathExists inp.main_audio_path then
          if fs.pathExists inp.image_path then
            match inp.background_music_path with
            | some bg =>
              if fs.pathExists bg then
                (none, [Check.fileFound "main_audio", Check.fileFound "image",
                        Check.fileFound "background_music"])
              else
                (some ("background_music file not found: " ++ bg),
                 [Check.fileFound "main_audio", Check.fileFound "image",
                  Check.fileFound "background_music"])
            | none => (none, [Check.fileFound "main_audio", Check.fileFound "image"])
          else
            (some ("image file not found: " ++ inp.image_path),
             [Check.fileFound "main_audio", Check.fileFound "image"])
        else
          (some ("main_audio file not found: " ++ inp.main_audio_path),
           [Check.fileFound "main_audio"]) := by
  cases hbg : inp.background_music_path with
  | none =>
    by_cases h1 : fs.pathExists inp.main_audio_path <;>
      by_cases h2 : fs.pathExists inp.image_path <;>
      simp [fileLoop, procPaths, h1, h2, hbg]
  | some bg =>
    by_cases h1 : fs.pathExists inp.main_audio_path <;>
      by_cases h2 : fs.pathExists inp.image_path <;>
      by_cases h3 : fs.pathExists bg <;>
      simp [fileLoop, procPaths, h1, h2, h3, hbg]

/-- C7 counterexample: when the output directory does not exist and cannot
be created, the validator does not return a failure tuple with a descriptive
error — the `mkdir` call raises and the exception escapes the validator. -/
theorem validator_mkdir_failure_raises_concrete :
    (validate_paths_and_permissions
        ⟨false, false, true, fun _ => true, 1000000000000⟩
        (procPaths ⟨"a.mp3", "img.png", "data/out.mp4", none⟩) 1).1
      = VOutcome.raised "OSError: cannot create directory: data"
    ∧ (validate_paths_and_permissions
        ⟨false, false, true, fun _ => true, 1000000000000⟩
        (procPaths ⟨"a.mp3", "img.png", "data/out.mp4", none⟩) 1).1.isReturnedFailure
      = false := by
  constructor <;> rfl

/-- C7 amended: on the processor's descriptor the validator performs its
checks in exactly the claimed order — output directory, writability,
declared input paths in declaration order, free space — and the first
failing check short-circuits with an error naming the offending path or
constraint, with no later check evaluated; amended only in that an
uncreatable output directory raises the OS error instead of returning a
failure tuple.  Stated as: the source validator, with its evaluated-check
trace, coincides with the spec-side check discipline on every filesystem,
descriptor and threshold. -/
theorem validator_checks_in_order (fs : FS) (inp : VideoInput) (g : ℚ) :
    validate_paths_and_permissions fs (procPaths inp) g
      = specValidateDescriptor fs inp g := by
  have hlk : ((procPaths inp).lookup "output").join = some inp.output_path := rfl
  unfold validate_paths_and_permissions specValidateDescriptor
  rw [hlk, fileLoop_procPaths]
  cases hbg : inp.background_music_path with
  | none =>
    by_cases h1 : fs.pathExists inp.main_audio_path <;>
      by_cases h2 : fs.pathExists inp.image_path <;>
      simp [h1, h2, specDiskTail]
  | some bg =>
    by_cases h1 : fs.pathExists inp.main_audio_path <;>
      by_cases h2 : fs.pathExists inp.image_path <;>
      by_cases h3 : fs.pathExists bg <;>
      simp [h1, h2, h3, specDiskTail]

/-- C6 (code bug, evaluated at the failing inputs): a supplied background
path that does not exist on disk is rejected by the preflight validation, so
the whole run fails before any mixing; and when the background file exists
but loading it raises, the fallback leaves the name `background_music`
unbound and the cleanup after a successful write raises a `NameError`, so
the run is reported failed even though the video file was written.  In
neither case does the run complete with a success result as claimed. -/
theorem background_failure_fails_run_concrete :
    VideoProcessor.create_video DEFAULT_VIDEO_CONFIG DEFAULT_AUDIO_CONFIG
        ⟨⟨true, true, true, fun p => !(p == "bg.mp3"), 1000000000000⟩,
          Except.ok (AudioFileClip (fun _ => 0) 10), Except.ok (),
          Except.ok (AudioFileClip (fun _ => 0) 4), none, Except.ok ()⟩
        ⟨"a.mp3", "img.png", "data/out.mp4", some "bg.mp3"⟩
      = { success := false,
          message := "background_music file not found: bg.mp3",
          output_path := none,
          error := some "background_music file not found: bg.mp3" }
    ∧ VideoProcessor.create_video DEFAULT_VIDEO_CONFIG DEFAULT_AUDIO_CONFIG
        ⟨⟨true, true, true, fun _ => true, 1000000000000⟩,
          Except.ok (AudioFileClip (fun _ => 0) 10), Except.ok (),
          Except.error "could not decode bg.mp3", none, Except.ok ()⟩
        ⟨"a.mp3", "img.png", "data/out.mp4", some "bg.mp3"⟩
      = { success := false,
          message := "Error creating video: name 'background_music' is not defined",
          output_path := none,
          error := some "name 'background_music' is not defined" } := by
  constructor
  · rfl
  · unfold VideoProcessor.create_video
    have hv : (validate_paths_and_permissions
        ⟨true, true, true, fun _ => true, 1000000000000⟩
        (procPaths ⟨"a.mp3", "img.png", "data/out.mp4", some "bg.mp3"⟩)
        DEFAULT_VIDEO_CONFIG.min_free_space_gb).1
        = VOutcome.returned true none := by
      unfold validate_paths_and_permissions
      rw [fileLoop_procPaths]
      norm_num [DEFAULT_VIDEO_CONFIG]
      rfl
    rw [hv]
    rfl

/-- A background failure that occurs after the background clip was loaded
does fall back to narration-only output and still succeeds (the asymmetry
the code intends; kept as a supporting fact for the C6 record). -/
theorem background_post_load_failure_falls_back :
    VideoProcessor.create_video DEFAULT_VIDEO_CONFIG DEFAULT_AUDIO_CONFIG
        ⟨⟨true, true, true, fun _ => true, 1000000000000⟩,
          Except.ok (AudioFileClip (fun _ => 0) 10), Except.ok (),
          Except.ok (AudioFileClip (fun _ => 0) 4), some "subclip failed",
          Except.ok ()⟩
        ⟨"a.mp3", "img.png", "data/out.mp4", some "bg.mp3"⟩
      = { success := true,
          message := "Video successfully created at: data/out.mp4",
          output_path := some "data/out.mp4", error := none } := by
  have hv : (validate_paths_and_permissions
      ⟨true, true, true, fun _ => true, 1000000000000⟩
      (procPaths ⟨"a.mp3", "img.png", "data/out.mp4", some "bg.mp3"⟩)
      DEFAULT_VIDEO_CONFIG.min_free_space_gb).1
      = VOutcome.returned true none := by
    unfold validate_paths_and_permissions
    rw [fileLoop_procPaths]
    norm_num [DEFAULT_VIDEO_CONFIG]
    rfl
  simp only [VideoProcessor.create_video, hv, finishWrite]
  rfl

/-- C10: `VideoProcessor.create_video` is total at its interface: for every
environment (including every point at which a Python exception can be
raised) it returns a `VideoProcessingResult`; the `error` field is populated
exactly on failure, and a success result carries the output path. -/
theorem create_video_total_interface (cfg : VideoConfig) (acfg : AudioConfig)
    (env : ProcEnv) (inp : VideoInput) :
    ((VideoProcessor.create_video cfg acfg env inp).error.isSome
        = !(VideoProcessor.create_video cfg acfg env inp).success)
    ∧ ((VideoProcessor.create_video cfg acfg env inp).output_path
        = if (VideoProcessor.create_video cfg acfg env inp).success = true
          then some inp.output_path else none) := by
  unfold VideoProcessor.create_video finishWrite exceptResult
  repeat' split
  all_goals simp_all

/-- C8: after the encode, the `create_video` node verifies the output file:
even when the processor result reports success, a missing output file or a
zero-byte output file makes the node raise, failing the run. -/
theorem post_encode_verification (env : NodeEnv) (fn : String)
    (hs : env.procResult.success = true) :
    (env.fileExists = false →
      TextToVideo.create_video env fn = Except.error "Video file was not created")
    ∧ (env.fileExists = true → env.fileSize = 0 →
      TextToVideo.create_video env fn
        = Except.error "Video file was created but is empty") := by
  constructor
  · intro h
    simp [TextToVideo.create_video, hs, h]
  · intro h h0
    simp [TextToVideo.create_video, hs, h, h0]

/-- C8 witness: a successful processor result with a zero-byte output file
is still a failure. -/
theorem post_encode_verification_witness :
    (({ procResult := ⟨true, "ok", some "data/out.mp4", none⟩,
        fileExists := true, fileSize := 0 } : NodeEnv).procResult.success = true)
    ∧ TextToVideo.create_video
        ⟨⟨true, "ok", some "data/out.mp4", none⟩, true, 0⟩ "data/out.mp4"
      = Except.error "Video file was created but is empty" :=
  ⟨rfl,
    (post_encode_verification
      ⟨⟨true, "ok", some "data/out.mp4", none⟩, true, 0⟩ "data/out.mp4" rfl).2 rfl rfl⟩

/-- C2 counterexample: a probe report with total count zero does not always
skip — an entry whose error starts with `missing_gmail_env:` makes the flow
raise a credentials exception before the count is even summed, so the
outcome is a raised exception, not the skip result (the graph is still not
invoked). -/
theorem preflight_credential_error_not_skipped_concrete :
    ((email_to_youtube
        [⟨"news@smol.ai", "last-24h", 0, "missing_gmail_env:GMAIL_CLIENT_ID"⟩]
        ⟨Except.ok ⟨"t", "s", "d"⟩, Except.ok "thumb.png", Except.ok "vid"⟩).1.isSkipped
      = false)
    ∧ (email_to_youtube
        [⟨"news@smol.ai", "last-24h", 0, "missing_gmail_env:GMAIL_CLIENT_ID"⟩]
        ⟨Except.ok ⟨"t", "s", "d"⟩, Except.ok "thumb.png", Except.ok "vid"⟩).1
      = FlowOutcome.raisedEx
          "Gmail credentials missing: missing_gmail_env:GMAIL_CLIENT_ID"
    ∧ (email_to_youtube
        [⟨"news@smol.ai", "last-24h", 0, "missing_gmail_env:GMAIL_CLIENT_ID"⟩]
        ⟨Except.ok ⟨"t", "s", "d"⟩, Except.ok "thumb.png", Except.ok "vid"⟩).2
      = false :=
  ⟨rfl, rfl, rfl⟩

/-- C2 amended: when no probe entry reports a missing-Gmail-credentials
error and the total matching-email count across all configured sources is
zero, `email_to_youtube` returns the distinguished skip result and the stage
graph is never invoked (no summarization, synthesis, encode or upload
work). -/
theorem preflight_zero_total_skips (availability : List ProbeItem) (env : GraphEnv)
    (hc : ∀ item ∈ availability,
      pyStartsWith item.error "missing_gmail_env:" = false)
    (h0 : (availability.map ProbeItem.count).sum = 0) :
    email_to_youtube availability env = (FlowOutcome.skipped "no_emails", false) := by
  unfold email_to_youtube
  have hf : availability.find?
      (fun item => pyStartsWith item.error "missing_gmail_env:") = none :=
    List.find?_eq_none.mpr (fun x hx => by simp [hc x hx])
  rw [hf]
  simp [h0]

/-- C2 witness: one configured source, no credential error, zero matches. -/
theorem preflight_zero_total_skips_witness :
    (∀ item ∈ ([⟨"news@smol.ai", "last-24h", 0, ""⟩] : List ProbeItem),
      pyStartsWith item.error "missing_gmail_env:" = false)
    ∧ (([⟨"news@smol.ai", "last-24h", 0, ""⟩] : List ProbeItem).map
        ProbeItem.count).sum = 0
    ∧ email_to_youtube [⟨"news@smol.ai", "last-24h", 0, ""⟩]
        ⟨Except.ok ⟨"t", "s", "d"⟩, Except.ok "thumb.png", Except.ok "vid"⟩
      = (FlowOutcome.skipped "no_emails", false) :=
  ⟨by decide, rfl,
    preflight_zero_total_skips _ _ (by decide) rfl⟩

/-- C9 counterexample: when the summary stage fails with error `E1`, the
thumbnail and video stages both overwrite the error field (three writers in
one run), and the error left in the final state — the one the orchestrator
surfaces — is the last one written, not `E1`. -/
theorem error_field_overwritten_concrete :
    errorWriteCount
        ⟨Except.error "E1", Except.ok "thumb.png", Except.ok "vid"⟩ initialEYState
      = 3
    ∧ (runGraph ⟨Except.error "E1", Except.ok "thumb.png", Except.ok "vid"⟩
        initialEYState).state.error
      = some "No summary available for video creation"
    ∧ ((runGraph ⟨Except.error "E1", Except.ok "thumb.png", Except.ok "vid"⟩
        initialEYState).state.error == some "E1")
      = false :=
  ⟨rfl, rfl, rfl⟩

/-- C9 amended: stages are not gated on the error field.  When the summary
stage fails, the two later stages run, each overwrites the error field
(three writes in total), the surfaced error is the last one written, and no
external thumbnail or upload work happens (only the summarize call was
made).  When the thumbnail stage fails after a successful summary, the video
stage still performs its upload work and exactly one stage wrote the error;
the flow then surfaces the thumbnail error as a failed run when its message
is non-empty — the Python truthiness guard `if final_state["error"]:` treats
an empty error message as falsy, so with an empty message the flow returns
the success dictionary even though the error field was written. -/
theorem error_propagation_last_writer_wins (e : String) (sm : Summary)
    (tp vr : String) :
    ((runGraph ⟨Except.error e, Except.ok tp, Except.ok vr⟩
        initialEYState).state.error
      = some "No summary available for video creation"
    ∧ errorWriteCount ⟨Except.error e, Except.ok tp, Except.ok vr⟩ initialEYState = 3
    ∧ (runGraph ⟨Except.error e, Except.ok tp, Except.ok vr⟩ initialEYState).calls
      = [ExtCall.summarize]
    ∧ email_to_youtube [⟨"news@smol.ai", "last-24h", 1, ""⟩]
        ⟨Except.error e, Except.ok tp, Except.ok vr⟩
      = (FlowOutcome.raisedEx "No summary available for video creation", true))
    ∧ ((runGraph ⟨Except.ok sm, Except.error e, Except.ok vr⟩
        initialEYState).state.error = some e
    ∧ errorWriteCount ⟨Except.ok sm, Except.error e, Except.ok vr⟩ initialEYState = 1
    ∧ (runGraph ⟨Except.ok sm, Except.error e, Except.ok vr⟩ initialEYState).calls
      = [ExtCall.summarize, ExtCall.thumbnailOverlay, ExtCall.textToYoutube]
    ∧ (runGraph ⟨Except.ok sm, Except.error e, Except.ok vr⟩
        initialEYState).state.video_result = some vr
    ∧ email_to_youtube [⟨"news@smol.ai", "last-24h", 1, ""⟩]
        ⟨Except.ok sm, Except.error e, Except.ok vr⟩
      = (if e.isEmpty then
          (FlowOutcome.flowSuccess ⟨some sm, some vr, none, some e⟩, true)
        else (FlowOutcome.raisedEx e, true))
    ∧ email_to_youtube [⟨"news@smol.ai", "last-24h", 1, ""⟩]
        ⟨Except.ok sm, Except.error "", Except.ok vr⟩
      = (FlowOutcome.flowSuccess ⟨some sm, some vr, none, some ""⟩, true)) :=
  ⟨⟨rfl, rfl, rfl, rfl⟩, ⟨rfl, rfl, rfl, rfl, rfl, rfl⟩⟩

end UltraAuto
